import Mathlib

/-!
Verification of the agent-jake-browser-mcp-extension session/command bridge.

Shallow embedding of the connection-state machine (`connection-state.ts`),
the local WebSocket client (`ws-client.ts`), the tab manager
(`tab-manager.ts`), the tool dispatcher (`tool-handlers.ts`), the content
script (`content/index.ts`) and the interaction tool handlers
(`tools/handlers/interaction.ts`, `tools/utils.ts`).
-/

namespace AgentJake

/-! ### String helpers

Kernel-reducible substring/prefix tests used to model JavaScript
`String.includes` / message prefixes. -/

/-- Prefix test: `isPrefixOfL p s` is true when the char list `p` is a prefix of `s`. -/
def isPrefixOfL : List Char → List Char → Bool
  | [], _ => true
  | _ :: _, [] => false
  | a :: as, b :: bs => a = b && isPrefixOfL as bs

/-- Infix test: `isInfixOfL p s` is true when `p` occurs contiguously inside `s`. -/
def isInfixOfL (p : List Char) : List Char → Bool
  | [] => isPrefixOfL p []
  | b :: bs => isPrefixOfL p (b :: bs) || isInfixOfL p bs

/-- JavaScript `s.includes(pat)`. -/
def containsSubstr (s pat : String) : Bool :=
  isInfixOfL pat.data s.data

/-- JavaScript `s.startsWith(pat)`. -/
def strStartsWith (s pat : String) : Bool :=
  isPrefixOfL pat.data s.data

/-! ### Backoff policy — `connection-state.ts`

`BackoffConfig`, `calculateBackoff` and `isRecoverableError` from
`src/background/connection-state.ts`.  Delays are embedded as rationals
(the source uses JS numbers); `Math.random()` is passed in explicitly as
the draw `rand ∈ [0,1)`; `Math.round` is Mathlib's `round` (both round
half toward `+∞`). -/

structure BackoffConfig where
  initialDelay : ℚ
  maxDelay : ℚ
  multiplier : ℚ
  maxAttempts : Nat
  jitter : Bool
deriving DecidableEq, Repr

/-- Constant `DEFAULT_BACKOFF` from `connection-state.ts`. -/
def DEFAULT_BACKOFF : BackoffConfig :=
  { initialDelay := 1000, maxDelay := 60000, multiplier := 2,
    maxAttempts := 0, jitter := true }

/-- The config the `ReverbClient` constructor passes to its
`ConnectionStateManager` (`reverb-client.ts`, lines 38–44). -/
def reverbBackoffConfig : BackoffConfig :=
  { initialDelay := 1000, maxDelay := 30000, multiplier := 2,
    maxAttempts := 0, jitter := true }

/-- The first two lines of `calculateBackoff`: the pre-jitter delay
`min(initialDelay * multiplier^(attempt-1), maxDelay)`. -/
def calcPreJitter (cfg : BackoffConfig) (attempt : Nat) : ℚ :=
  min (cfg.initialDelay * cfg.multiplier ^ (attempt - 1)) cfg.maxDelay

/-- Embedding of `ConnectionStateManager.calculateBackoff` with the random draw made
explicit.  Mirrors: exponential delay, cap at `maxDelay`, then
`delay += (Math.random() * jitterRange * 2) - jitterRange` with
`jitterRange = delay * 0.25`, and finally `Math.round(delay)`. -/
def calculateBackoff (cfg : BackoffConfig) (attempt : Nat) (rand : ℚ) : ℤ :=
  round (if cfg.jitter then
           calcPreJitter cfg attempt +
             (rand * (calcPreJitter cfg attempt * (1 / 4)) * 2 -
              calcPreJitter cfg attempt * (1 / 4))
         else calcPreJitter cfg attempt)

/-- Embedding of `ConnectionStateManager.isRecoverableError`: only `AUTH_EXPIRED` is
non-recoverable; the named network-class codes and the `default` arm are
all recoverable. -/
def isRecoverableError (code : String) : Bool :=
  if code = "AUTH_EXPIRED" then false
  else if code = "NETWORK_ERROR" then true
  else if code = "SERVER_ERROR" then true
  else if code = "WEBSOCKET_ERROR" then true
  else if code = "TIMEOUT" then true
  else if code = "RATE_LIMITED" then true
  else true

/-- Connection states of `connection-state.ts`. -/
inductive ConnState
  | disconnected | connecting | connected | reconnecting | failed | offline
deriving DecidableEq, Repr

structure ConnectionError where
  code : String
  message : String
  timestamp : ℤ
  isRecoverable : Bool
deriving DecidableEq, Repr

/-- The mutable fields of `ConnectionStateManager` that `handleError`
reads or writes. -/
structure CsmState where
  state : ConnState
  reconnectAttempt : Nat
  lastError : Option ConnectionError
deriving DecidableEq, Repr

structure HandleErrorResult where
  shouldRetry : Bool
  delay : Option ℤ
deriving DecidableEq, Repr

/-- Embedding of `ConnectionStateManager.handleError`.  `online` is
`navigator.onLine`, `rand` the jitter draw, `now` `Date.now()`. -/
def handleError (cfg : BackoffConfig) (s : CsmState) (code message : String)
    (online : Bool) (rand : ℚ) (now : ℤ) : CsmState × HandleErrorResult :=
  if !online then
    ({ s with lastError := some ⟨code, message, now, isRecoverableError code⟩,
              state := .offline },
     ⟨false, none⟩)
  else if !(isRecoverableError code) then
    ({ s with lastError := some ⟨code, message, now, isRecoverableError code⟩,
              state := .failed },
     ⟨false, none⟩)
  else if cfg.maxAttempts > 0 ∧ s.reconnectAttempt + 1 ≥ cfg.maxAttempts then
    ({ s with lastError := some ⟨code, message, now, isRecoverableError code⟩,
              reconnectAttempt := s.reconnectAttempt + 1,
              state := .failed },
     ⟨false, none⟩)
  else
    ({ s with lastError := some ⟨code, message, now, isRecoverableError code⟩,
              reconnectAttempt := s.reconnectAttempt + 1,
              state := .reconnecting },
     ⟨true, some (calculateBackoff cfg (s.reconnectAttempt + 1) rand)⟩)

/-! ### Local WebSocket client — `ws-client.ts`

State machine for `WebSocketClient`: reconnection scheduling
(`handleDisconnect`) and explicit disconnect (`disconnect`).  Timers are
modelled by the scheduled delay; pending request/response correlations by
their id list; rejections are returned as `(id, message)` pairs. -/

/-- Constant `CONFIG.RECONNECT_INTERVAL_MS` from `types/config.ts`. -/
def RECONNECT_INTERVAL_MS : Nat := 1000

/-- Constant `CONFIG.MAX_RECONNECT_ATTEMPTS` from `types/config.ts`. -/
def MAX_RECONNECT_ATTEMPTS : Nat := 10

structure WsState where
  reconnectAttempts : Nat
  shouldReconnect : Bool
  /-- Field `reconnectTimer`: `some d` when a retry is scheduled after `d` ms. -/
  reconnectTimer : Option Nat
  /-- ids of the entries of `pendingRequests`. -/
  pending : List String
  socketOpen : Bool
deriving DecidableEq, Repr

/-- Embedding of `WebSocketClient.handleDisconnect`: no retry when `shouldReconnect`
is off; stop when a positive max-attempts bound is reached; otherwise
increment the counter and schedule one retry after the fixed interval
(the source comments: "Fixed interval, no exponential backoff"). -/
def wsHandleDisconnect (maxAttempts intervalMs : Nat) (s : WsState) : WsState :=
  if !s.shouldReconnect then s
  else if maxAttempts > 0 ∧ s.reconnectAttempts ≥ maxAttempts then s
  else
    { s with reconnectAttempts := s.reconnectAttempts + 1,
             reconnectTimer := some intervalMs }

/-- The error message `disconnect` rejects pending requests with. -/
def wsDisconnectMsg : String := "WebSocket disconnected"

/-- Embedding of `WebSocketClient.disconnect`: clears `shouldReconnect`, cancels the
reconnect timer, closes the socket, rejects every pending request with
`wsDisconnectMsg` and clears the map.  Returns the new state and the
rejection list. -/
def wsDisconnect (s : WsState) : WsState × List (String × String) :=
  ({ reconnectAttempts := s.reconnectAttempts,
     shouldReconnect := false,
     reconnectTimer := none,
     pending := [],
     socketOpen := false },
   s.pending.map (fun id => (id, wsDisconnectMsg)))

/-! ### Tab manager — `tab-manager.ts` -/

/-- The message class `sendDebuggerCommand` retries on. -/
def cdpNotAttachedMsg : String := "Debugger is not attached"

inductive DbgEvent
  | checkAttach
  | attach
  | send (n : Nat)
deriving DecidableEq, Repr

/-- Embedding of `TabManager.sendDebuggerCommand` (tab connected), with the
environment's behaviour passed in: `attached0` is the initial
`isDebuggerAttached` probe, `outcomes n` the result of the `n`-th
`chrome.debugger.sendCommand` (including the timeout race).  The
`retriedAfterDetach` flag bounds the loop to two sends, so the loop is
unrolled: a first "not attached" error forces one re-attach and one
resend; a second ends with a `CDP_NOT_READY`-prefixed error; any other
error propagates. -/
def attachPreamble (attached0 : Bool) : List DbgEvent :=
  if attached0 then [.checkAttach] else [.checkAttach, .attach]

def sendDebuggerCommand {T : Type} (attached0 : Bool)
    (outcomes : Nat → Except String T) : Except String T × List DbgEvent :=
  match outcomes 0 with
  | .ok v => (.ok v, attachPreamble attached0 ++ [.send 0])
  | .error m =>
    if containsSubstr m cdpNotAttachedMsg then
      -- retriedAfterDetach := true; attachDebugger; continue
      match outcomes 1 with
      | .ok v =>
        (.ok v, attachPreamble attached0 ++ [.send 0, .attach, .checkAttach, .send 1])
      | .error m2 =>
        if containsSubstr m2 cdpNotAttachedMsg then
          (.error ("CDP_NOT_READY: " ++ m2),
           attachPreamble attached0 ++ [.send 0, .attach, .checkAttach, .send 1])
        else
          (.error m2,
           attachPreamble attached0 ++ [.send 0, .attach, .checkAttach, .send 1])
    else
      (.error m, attachPreamble attached0 ++ [.send 0])

/-- The privileged new-tab URL special-cased by `connectTab`. -/
def chromeNewTabUrl : String := "chrome://newtab/"

inductive ConnectEvent
  | navigateBlank   -- navigate the tab to the neutral blank page
  | waitLoad        -- await the load-complete signal
  | disconnectPrev  -- disconnect the previous session
  | existsCheck     -- probe that the tab exists
  | attach          -- attach the debugger
  | persist         -- persist the tab id to storage
  | guard           -- inject the live-connection guard
deriving DecidableEq, Repr

/-- Events emitted by the disconnect-previous-session step of
`connectTab` (the JS truthiness test `connectedTabId && connectedTabId
!== tabId`). -/
def prevDisconnectEvents (prevTab : Option Nat) (tabId : Nat) : List ConnectEvent :=
  match prevTab with
  | some p => if p ≠ 0 ∧ p ≠ tabId then [.disconnectPrev] else []
  | none => []

/-- Everything `connectTab` does after the new-tab-page special case. -/
def connectTabRest (prevTab : Option Nat) (tabExists : Bool)
    (attachOutcome : Except String Unit) (tabId : Nat) :
    Except String Unit × List ConnectEvent :=
  if !tabExists then
    (.error ("Tab " ++ toString tabId ++ " does not exist"),
     prevDisconnectEvents prevTab tabId ++ [.existsCheck])
  else
    match attachOutcome with
    | .error e =>
      (.error e, prevDisconnectEvents prevTab tabId ++ [.existsCheck, .attach])
    | .ok _ =>
      (.ok (),
       prevDisconnectEvents prevTab tabId ++ [.existsCheck, .attach, .persist, .guard])

/-- Embedding of `TabManager.connectTab`.  `prevTab` is the current
`connectedTabId` (`0` is falsy in the JS truthiness test), `tabExists`
the result of the existence probe, `attachOutcome` the result of
`attachDebugger`.  Returns the outcome and the event trace in program
order: the privileged new-tab page is first navigated to the neutral
blank page and its load awaited. -/
def connectTab (prevTab : Option Nat) (tabExists : Bool)
    (attachOutcome : Except String Unit) (tabId : Nat) (tabUrl : Option String) :
    Except String Unit × List ConnectEvent :=
  if tabUrl = some chromeNewTabUrl then
    ((connectTabRest prevTab tabExists attachOutcome tabId).1,
     .navigateBlank :: .waitLoad ::
       (connectTabRest prevTab tabExists attachOutcome tabId).2)
  else
    connectTabRest prevTab tabExists attachOutcome tabId

/-! #### New-tab detection — `tab-manager.ts` lines 458–505 -/

structure TabInfo where
  id : Nat
  url : String
  title : String
  active : Bool
  connected : Bool
deriving DecidableEq, Repr

/-- A `chrome.tabs.Tab` as seen by the `onCreated` listener (`id` is
optional in the Chrome API; `0` is falsy in the JS guard). -/
structure CreatedTab where
  id : Option Nat
  url : Option String
  pendingUrl : Option String
  title : Option String
  active : Bool
deriving DecidableEq, Repr

/-- The `TabManager` fields involved in new-tab detection. -/
structure DetectState where
  connectedTabId : Option Nat
  pendingNewTab : Option TabInfo
  listenerActive : Bool
deriving DecidableEq, Repr

/-- Embedding of `TabManager.startNewTabDetection`: clears any previous capture and
(re)installs the `onCreated` listener. -/
def startNewTabDetection (s : DetectState) : DetectState :=
  { s with pendingNewTab := none, listenerActive := true }

/-- The `TabInfo` the listener records for a created tab with id `i`:
`url: tab.url || tab.pendingUrl || ''`, `connected: false`. -/
def capturedTabInfo (t : CreatedTab) (i : Nat) : TabInfo :=
  { id := i,
    url := (t.url.filter (· ≠ "")).getD ((t.pendingUrl.filter (· ≠ "")).getD ""),
    title := (t.title.filter (· ≠ "")).getD "",
    active := t.active,
    connected := false }

/-- The `chrome.tabs.onCreated` listener installed by
`startNewTabDetection`: captures the tab only while a tab is connected
and the created tab is not the connected tab itself (JS truthiness:
`this.connectedTabId && tab.id && tab.id !== this.connectedTabId`). -/
def onTabCreated (s : DetectState) (t : CreatedTab) : DetectState :=
  if !s.listenerActive then s
  else
    match s.connectedTabId, t.id with
    | some c, some i =>
      if c ≠ 0 ∧ i ≠ 0 ∧ i ≠ c then
        { s with pendingNewTab := some (capturedTabInfo t i) }
      else s
    | _, _ => s

/-- Embedding of `TabManager.stopNewTabDetection`: removes the listener, returns the
captured tab (if any) and clears the record. -/
def stopNewTabDetection (s : DetectState) : DetectState × Option TabInfo :=
  ({ s with listenerActive := false, pendingNewTab := none },
   s.pendingNewTab)

/-! ### Content script — `content/index.ts`

Reference strings have the form `s<gen>e<idx>`.  `handleGetSelector`
parses the generation with the regex `/^s(\d+)e/` and distinguishes the
stale-generation error from the plain not-found error. -/

/-- Numeric value of a digit list (most significant first), as
`parseInt(digits, 10)`. -/
def digitsToNat (ds : List Char) : Nat :=
  ds.foldl (fun n c => n * 10 + (c.toNat - '0'.toNat)) 0

/-- The regex match `/^s(\d+)e/` of `handleGetSelector`: requires a
leading `s`, one or more digits, then `e`; returns the parsed generation
together with the characters after the `e`. -/
def refPrefixParse (ref : String) : Option (Nat × List Char) :=
  match ref.data with
  | 's' :: rest =>
    let digits := rest.takeWhile Char.isDigit
    let rest2 := rest.dropWhile Char.isDigit
    if digits ≠ [] then
      match rest2 with
      | 'e' :: tail => some (digitsToNat digits, tail)
      | _ => none
    else none
  | _ => none

/-- Just the generation group of the `/^s(\d+)e/` match. -/
def refGenMatch (ref : String) : Option Nat :=
  (refPrefixParse ref).map (·.1)

/-- Full parse of a reference `s<gen>e<idx>` into generation and index. -/
def parseRefStr (ref : String) : Option (Nat × Nat) :=
  match refPrefixParse ref with
  | some (g, tail) =>
    if tail ≠ [] ∧ tail.all Char.isDigit then some (g, digitsToNat tail) else none
  | none => none

/-- The current snapshot held by the content script's aria-tree module.
Elements are modelled by opaque numeric handles; `elements` is the
per-snapshot index→element map. -/
structure Snapshot where
  generation : Nat
  elements : List (Nat × Nat)
deriving DecidableEq, Repr

/-- Modelled from the spec: `getElementByRef` from the content layer's
`aria-tree.ts`, which is absent from the sources (only its importers
are).  Per the spec (§3, §4.2) the registry holds exclusively the
current snapshot's reference→element mapping, references embed the
issuing snapshot's generation, and resolution by reference never
re-queries: a reference whose generation differs from the current
snapshot's — or that does not parse — resolves to nothing. -/
def getElementByRef (snap : Option Snapshot) (ref : String) : Option Nat :=
  match snap, parseRefStr ref with
  | some s, some (g, i) =>
    if g = s.generation then (s.elements.lookup i) else none
  | _, _ => none

/-- The stale-reference message template of `handleGetSelector`. -/
def staleRefMsg (currentGen : Nat) (refGen : Nat) : String :=
  "Stale element reference. Snapshot generation is " ++ toString currentGen ++
  ", but ref is from generation " ++ toString refGen ++ ". Regenerate snapshot."

/-- Embedding of `handleGetSelector` from `content/index.ts` (lines 121–141).
`buildSel` abstracts `buildSelector` from `content/selector.ts` (it is
only reached on successful resolution). -/
def handleGetSelector (buildSel : Nat → String) (snap : Option Snapshot)
    (ref : String) : Except String String :=
  match getElementByRef snap ref with
  | some element => .ok (buildSel element)
  | none =>
    match snap with
    | none => .error "No snapshot available. Generate a snapshot first."
    | some s =>
      match refGenMatch ref with
      | some g =>
        if g ≠ s.generation then .error (staleRefMsg s.generation g)
        else .error ("Element not found for ref: " ++ ref)
      | none => .error ("Element not found for ref: " ++ ref)

/-! ### Navigation-aware stability — `tools/utils.ts` -/

/-- JavaScript `toLowerCase()` over the underlying char list (ASCII case
folding per `Char.toLower`). -/
def toLowerStr (s : String) : String :=
  String.mk (s.data.map Char.toLower)

/-- Embedding of `isNavigationError` from `src/background/tools/utils.ts`: the
navigation / page-context-destroyed error class, matched
case-insensitively on the message. -/
def isNavigationError (msg : String) : Bool :=
  let m := toLowerStr msg
  containsSubstr m "back/forward cache" ||
  containsSubstr m "message channel" ||
  containsSubstr m "port" ||
  containsSubstr m "closed" ||
  containsSubstr m "receiving end does not exist"

structure NavResult where
  navigated : Bool
  newUrl : Option String
deriving DecidableEq, Repr

/-- Embedding of `waitForStableOrNavigation` from `tools/utils.ts`: `stability` is the
outcome of the content layer's `waitForDomStable` round-trip and
`currentUrl` the tab's URL as re-read by `chrome.tabs.get` inside the
catch block. -/
def waitForStableOrNavigation (tabId : Option Nat)
    (stability : Except String Unit) (currentUrl initialUrl : String) :
    Except String NavResult :=
  match tabId with
  | none => .error "No tab connected"
  | some _ =>
    match stability with
    | .ok _ => .ok ⟨false, none⟩
    | .error e =>
      if isNavigationError e then
        if currentUrl ≠ initialUrl then .ok ⟨true, some currentUrl⟩
        else .ok ⟨false, none⟩
      else .error e

/-! ### Interaction tool handlers — `tools/handlers/interaction.ts`

Each handler is embedded as a function of a `ToolEnv` describing the
behaviour of the environment it calls into (the content script's DOM
answers, the CDP channel, the tab's URLs), returning the JSON result as
an explicit field list — so "no `navigated` field" is expressible —
together with the trace of effects in program order. -/

inductive FieldVal
  | str (s : String)
  | bool (b : Bool)
  | tab (t : TabInfo)
deriving DecidableEq, Repr

/-- One key of a handler's JSON result object. -/
abbrev Field := String × FieldVal

inductive ToolEvent
  | startDetect
  | selectorQuery (ref : String)
  | scroll (sel : String)
  | coordsQuery (sel : String)
  | mouse (ty : String) (x y : ℤ)
  | key (ty : String) (k : String)
  | stabilityWait
  | stopDetect
deriving DecidableEq, Repr

/-- Is the event a CDP `Input.dispatchMouseEvent` (part of the click)? -/
def ToolEvent.isMouse : ToolEvent → Bool
  | .mouse _ _ _ => true
  | _ => false

/-- Environment a handler executes in: the connected tab, the content
script's snapshot state and DOM answers, and the stability outcome. -/
structure ToolEnv where
  tabId : Option Nat
  snap : Option Snapshot
  buildSel : Nat → String
  scrollOutcome : String → Except String Unit
  coordsOutcome : String → Except String (ℤ × ℤ)
  stability : Except String Unit
  /-- the tab's URL before the action (`chrome.tabs.get` upfront). -/
  initialUrl : String
  /-- the tab's URL at the post-action re-check. -/
  currentUrl : String
  /-- the tab created while detection was active, if any. -/
  newTabCreated : Option CreatedTab

/-- The `getSelector` round-trip used by the handlers: a content message
that runs `handleGetSelector` in the page. -/
def envGetSelector (env : ToolEnv) (ref : String) : Except String String :=
  handleGetSelector env.buildSel env.snap ref

/-- What `stopNewTabDetection` yields for this command: the detection
bracket applied to the (at most one) tab creation in `env`. -/
def envDetectedTab (env : ToolEnv) : Option TabInfo :=
  let s0 := startNewTabDetection
    { connectedTabId := env.tabId, pendingNewTab := none, listenerActive := false }
  let s1 := match env.newTabCreated with
    | some t => onTabCreated s0 t
    | none => s0
  (stopNewTabDetection s1).2

/-- Result spread for a detected new tab. -/
def newTabField : Option TabInfo → List Field
  | some t => [("newTabOpened", .tab t)]
  | none => []

/-- Result field for the post-navigation URL, present when navigation was detected. -/
def newUrlField : Option String → List Field
  | some u => [("newUrl", .str u)]
  | none => []

/-- The `browser_click` handler (`interaction.ts` lines 18–63). -/
def browser_click (env : ToolEnv) (ref : String) :
    Except String (List Field) × List ToolEvent :=
  match env.tabId with
  | none => (.error "No tab connected", [])
  | some _ =>
    -- initialUrl captured; startNewTabDetection(); then the try block,
    -- whose catch calls stopNewTabDetection() and rethrows.
    match envGetSelector env ref with
    | .error e => (.error e, [.startDetect, .selectorQuery ref, .stopDetect])
    | .ok sel =>
      match env.scrollOutcome sel with
      | .error e =>
        (.error e, [.startDetect, .selectorQuery ref, .scroll sel, .stopDetect])
      | .ok _ =>
        match env.coordsOutcome sel with
        | .error e =>
          (.error e,
           [.startDetect, .selectorQuery ref, .scroll sel, .coordsQuery sel,
            .stopDetect])
        | .ok c =>
          let pre : List ToolEvent :=
            [.startDetect, .selectorQuery ref, .scroll sel, .coordsQuery sel,
             .mouse "mouseMoved" c.1 c.2, .mouse "mousePressed" c.1 c.2,
             .mouse "mouseReleased" c.1 c.2, .stabilityWait]
          match waitForStableOrNavigation env.tabId env.stability
              env.currentUrl env.initialUrl with
          | .error e => (.error e, pre ++ [.stopDetect])
          | .ok nav =>
            let newTab := envDetectedTab env
            if nav.navigated then
              (.ok ([("clicked", .str ref), ("navigated", .bool true)] ++
                    newUrlField nav.newUrl ++ newTabField newTab),
               pre ++ [.stopDetect])
            else
              (.ok ([("clicked", .str ref)] ++ newTabField newTab),
               pre ++ [.stopDetect])

/-- The `browser_type` handler (`interaction.ts` lines 65–103); the
clear-sequence and per-character key events are recorded in the trace. -/
def browser_type (env : ToolEnv) (ref text : String) (clear : Bool) :
    Except String (List Field) × List ToolEvent :=
  match env.tabId with
  | none => (.error "No tab connected", [])
  | some _ =>
    match envGetSelector env ref with
    | .error e => (.error e, [.selectorQuery ref])
    | .ok sel =>
      match env.scrollOutcome sel with
      | .error e => (.error e, [.selectorQuery ref, .scroll sel])
      | .ok _ =>
        match env.coordsOutcome sel with
        | .error e => (.error e, [.selectorQuery ref, .scroll sel, .coordsQuery sel])
        | .ok c =>
          let clearKeys : List ToolEvent :=
            if clear then
              [.key "keyDown" "Control", .key "keyDown" "a", .key "keyUp" "a",
               .key "keyUp" "Control", .key "keyDown" "Backspace",
               .key "keyUp" "Backspace"]
            else []
          let typeKeys : List ToolEvent :=
            text.data.flatMap (fun ch =>
              [.key "keyDown" (String.mk [ch]), .key "char" (String.mk [ch]),
               .key "keyUp" (String.mk [ch])])
          let pre : List ToolEvent :=
            [.selectorQuery ref, .scroll sel, .coordsQuery sel,
             .mouse "mouseMoved" c.1 c.2, .mouse "mousePressed" c.1 c.2,
             .mouse "mouseReleased" c.1 c.2] ++ clearKeys ++ typeKeys ++
            [.stabilityWait]
          match waitForStableOrNavigation env.tabId env.stability
              env.currentUrl env.initialUrl with
          | .error e => (.error e, pre)
          | .ok nav =>
            if nav.navigated then
              (.ok ([("typed", .str text), ("cleared", .bool clear),
                     ("navigated", .bool true)] ++ newUrlField nav.newUrl), pre)
            else
              (.ok [("typed", .str text), ("cleared", .bool clear)], pre)

/-- The `browser_press_key` handler (`interaction.ts` lines 118–134). -/
def browser_press_key (env : ToolEnv) (k : String) :
    Except String (List Field) × List ToolEvent :=
  match env.tabId with
  | none => (.error "No tab connected", [])
  | some _ =>
    let pre : List ToolEvent := [.key "keyDown" k, .key "keyUp" k, .stabilityWait]
    match waitForStableOrNavigation env.tabId env.stability
        env.currentUrl env.initialUrl with
    | .error e => (.error e, pre)
    | .ok nav =>
      if nav.navigated then
        (.ok ([("pressed", .str k), ("navigated", .bool true)] ++
              newUrlField nav.newUrl), pre)
      else
        (.ok [("pressed", .str k)], pre)

/-! ### Dispatcher — `tool-handlers.ts` `handleMessage` -/

structure IncomingMessage (P : Type) where
  id : String
  type : String
  payload : P
deriving DecidableEq, Repr

structure ErrorInfo where
  code : String
  message : String
deriving DecidableEq, Repr

structure OutgoingMessage (R : Type) where
  id : String
  success : Bool
  result : Option R
  error : Option ErrorInfo
deriving DecidableEq, Repr

/-- A thrown JS `Error` as the dispatcher's catch sees it: its `name`
(`""` models a falsy/absent name) and `message`. -/
structure ThrownError where
  name : String
  message : String
deriving DecidableEq, Repr

/-- Embedding of `handleMessage` from `tool-handlers.ts` (lines 65–113).  `handlers`
is the registered tool table; a handler either returns a result or
throws.  The dispatcher itself always returns an envelope. -/
def handleMessage {P R : Type} (handlers : String → Option (P → Except ThrownError R))
    (msg : IncomingMessage P) : OutgoingMessage R :=
  match handlers msg.type with
  | none =>
    { id := msg.id, success := false, result := none,
      error := some ⟨"UNKNOWN_TOOL", "Unknown tool: " ++ msg.type⟩ }
  | some handler =>
    match handler msg.payload with
    | .ok r => { id := msg.id, success := true, result := some r, error := none }
    | .error e =>
      { id := msg.id, success := false, result := none,
        error := some ⟨if e.name = "" then "EXECUTION_ERROR" else e.name,
                       e.message⟩ }

/-! ### Concrete environments used by the witnesses -/

/-- A tool environment whose content script holds a generation-2 snapshot,
used to exercise the stale-reference path with the spec's `s1e5` example. -/
def demoStaleEnv : ToolEnv :=
  { tabId := some 7,
    snap := some { generation := 2, elements := [(5, 77)] },
    buildSel := fun e => "#el" ++ toString e,
    scrollOutcome := fun _ => .ok (),
    coordsOutcome := fun _ => .ok (10, 20),
    stability := .ok (),
    initialUrl := "https://a.example/",
    currentUrl := "https://a.example/",
    newTabCreated := none }

/-- A tool environment where the post-action stability wait fails with a
navigation-class error and the tab's URL has changed. -/
def demoNavEnv : ToolEnv :=
  { tabId := some 7,
    snap := some { generation := 1, elements := [(5, 77)] },
    buildSel := fun e => "#el" ++ toString e,
    scrollOutcome := fun _ => .ok (),
    coordsOutcome := fun _ => .ok (10, 20),
    stability := .error "The message port closed before a response was received",
    initialUrl := "https://a.example/",
    currentUrl := "https://b.example/",
    newTabCreated := none }

/-- Same environment with an unchanged URL. -/
def demoSameUrlEnv : ToolEnv :=
  { demoNavEnv with currentUrl := "https://a.example/" }

/-- CDP send outcomes: every attempt fails with a not-attached error. -/
def demoDetachedOutcomes : Nat → Except String Nat :=
  fun _ => .error "Debugger is not attached to the target"

/-- A demo tool table for the dispatcher: one registered tool that throws
on payload `0` and succeeds otherwise. -/
def demoHandlers : String → Option (Nat → Except ThrownError Nat) :=
  fun t =>
    if t = "browser_demo" then
      some (fun n => if n = 0 then .error ⟨"", "boom"⟩ else .ok (n + 1))
    else none

/-! ### Helper lemmas -/

theorem isPrefixOfL_refl_append (p rest : List Char) :
    isPrefixOfL p (p ++ rest) = true := by
  induction p with
  | nil => rfl
  | cons a as ih => simp [isPrefixOfL, ih]

theorem isInfixOfL_of_prefix {p s : List Char} (h : isPrefixOfL p s = true) :
    isInfixOfL p s = true := by
  cases s with
  | nil => simpa [isInfixOfL] using h
  | cons b bs => simp [isInfixOfL, h]

theorem isInfixOfL_cons {p s : List Char} (c : Char)
    (h : isInfixOfL p s = true) : isInfixOfL p (c :: s) = true := by
  simp [isInfixOfL, h]

theorem isInfixOfL_sandwich (p : List Char) :
    ∀ (pre rest : List Char), isInfixOfL p (pre ++ (p ++ rest)) = true := by
  intro pre
  induction pre with
  | nil =>
    intro rest
    exact isInfixOfL_of_prefix (isPrefixOfL_refl_append p rest)
  | cons c pre ih =>
    intro rest
    simpa using isInfixOfL_cons c (ih rest)

/-- The stale-reference message surfaces both the current snapshot
generation and the reference generation. -/
theorem staleRefMsg_names_generations (a b : Nat) :
    containsSubstr (staleRefMsg a b) (toString a) = true ∧
    containsSubstr (staleRefMsg a b) (toString b) = true := by
  constructor
  · show isInfixOfL (toString a).data (staleRefMsg a b).data = true
    simp only [staleRefMsg, String.data_append, List.append_assoc]
    exact isInfixOfL_sandwich _ _ _
  · show isInfixOfL (toString b).data (staleRefMsg a b).data = true
    simp only [staleRefMsg, String.data_append, List.append_assoc]
    simpa [List.append_assoc] using
      isInfixOfL_sandwich (toString b).data
        (("Stale element reference. Snapshot generation is ").data ++
          ((toString a).data ++ (", but ref is from generation ").data))
        (". Regenerate snapshot.").data

/-- Error messages of the `CDP_NOT_READY` class begin with that code. -/
theorem strStartsWith_cdpNotReady (m : String) :
    strStartsWith ("CDP_NOT_READY: " ++ m) "CDP_NOT_READY" = true := by
  show isPrefixOfL ("CDP_NOT_READY").data ("CDP_NOT_READY: " ++ m).data = true
  rw [String.data_append]
  have h : ("CDP_NOT_READY: ").data = ("CDP_NOT_READY").data ++ (": ").data := by
    decide
  rw [h, List.append_assoc]
  exact isPrefixOfL_refl_append _ _

theorem parseRefStr_gen {ref : String} {g i : Nat}
    (h : parseRefStr ref = some (g, i)) : refGenMatch ref = some g := by
  unfold parseRefStr at h
  unfold refGenMatch
  cases hp : refPrefixParse ref with
  | none => rw [hp] at h; exact absurd h (by simp)
  | some gt =>
    obtain ⟨g0, tail⟩ := gt
    rw [hp] at h
    dsimp only at h
    split at h
    · simp only [Option.some.injEq, Prod.mk.injEq] at h
      simp [h.1]
    · exact absurd h (by simp)

/-- A reference from a different generation never resolves. -/
theorem getElementByRef_stale {snap : Snapshot} {ref : String} {g : Nat}
    (hg : refGenMatch ref = some g) (hne : g ≠ snap.generation) :
    getElementByRef (some snap) ref = none := by
  unfold getElementByRef
  cases hp : parseRefStr ref with
  | none => simp
  | some gi =>
    obtain ⟨g', i⟩ := gi
    have : g' = g := by
      have := parseRefStr_gen hp
      rw [hg] at this
      exact (Option.some.injEq _ _ ▸ this).symm
    subst this
    simp [hne]

/-- Only `AUTH_EXPIRED` is classified non-recoverable. -/
theorem isRecoverableError_false_iff (code : String) :
    isRecoverableError code = false ↔ code = "AUTH_EXPIRED" := by
  unfold isRecoverableError
  split_ifs with h1 h2 h3 h4 h5 h6 <;> simp_all

/-- The jittered backoff stays within a quarter of the pre-jitter delay,
up to the half-millisecond the rounding can add. -/
theorem calculateBackoff_jitter_band (cfg : BackoffConfig) (attempt : Nat)
    (rand : ℚ) (h2 : 0 ≤ rand) (h3 : rand ≤ 1)
    (hd : 0 ≤ calcPreJitter cfg attempt) :
    |(calculateBackoff cfg attempt rand : ℚ) - calcPreJitter cfg attempt| ≤
      calcPreJitter cfg attempt / 4 + 1 / 2 := by
  have habs : ∀ x : ℚ, |(round x : ℚ) - x| ≤ 1 / 2 := fun x => by
    rw [abs_sub_comm]; exact abs_sub_round x
  unfold calculateBackoff
  set d := calcPreJitter cfg attempt with hdd
  by_cases hj : cfg.jitter = true
  · rw [if_pos hj]
    set d2 := d + (rand * (d * (1 / 4)) * 2 - d * (1 / 4)) with hd2
    have hjit : |d2 - d| ≤ d / 4 := by
      rw [hd2, abs_le]
      constructor <;> nlinarith
    calc |(round d2 : ℚ) - d| ≤ |(round d2 : ℚ) - d2| + |d2 - d| :=
          abs_sub_le _ _ _
      _ ≤ 1 / 2 + d / 4 := add_le_add (habs d2) hjit
      _ = d / 4 + 1 / 2 := by ring
  · rw [if_neg hj]
    have h4 : (0 : ℚ) ≤ d / 4 := by linarith
    linarith [habs d]

theorem onTabCreated_connectedTabId (s : DetectState) (t : CreatedTab) :
    (onTabCreated s t).connectedTabId = s.connectedTabId := by
  unfold onTabCreated
  split
  · rfl
  · split
    · split <;> rfl
    · rfl

/-- Case analysis of one `onCreated` step: either the capture record is
unchanged, or a qualifying tab (nonzero id, distinct from the connected
tab) was recorded. -/
theorem onTabCreated_pending_cases (s : DetectState) (t : CreatedTab) :
    (onTabCreated s t).pendingNewTab = s.pendingNewTab ∨
    (∃ c i, s.connectedTabId = some c ∧ t.id = some i ∧
      c ≠ 0 ∧ i ≠ 0 ∧ i ≠ c ∧
      (onTabCreated s t).pendingNewTab = some (capturedTabInfo t i)) := by
  unfold onTabCreated
  split
  · left; rfl
  · split
    · rename_i c i hconn hid
      split
      · rename_i hcond
        right
        exact ⟨c, i, hconn, hid, hcond.1, hcond.2.1, hcond.2.2, rfl⟩
      · left; rfl
    · left; rfl

/-- Invariant: folding creation events never records the connected tab. -/
theorem detect_never_captures_connected (c : Nat) (events : List CreatedTab) :
    ∀ (s : DetectState), s.connectedTabId = some c →
    (∀ info, s.pendingNewTab = some info → info.id ≠ c) →
    ∀ info, (events.foldl onTabCreated s).pendingNewTab = some info →
      info.id ≠ c := by
  induction events with
  | nil => intro s _ hinv info h; exact hinv info h
  | cons t ts ih =>
    intro s hs hinv info h
    refine ih (onTabCreated s t) ?_ ?_ info h
    · rw [onTabCreated_connectedTabId]; exact hs
    · intro info' h'
      rcases onTabCreated_pending_cases s t with hsame |
        ⟨c', i, hc', hi, _hc0, _hi0, hne, hset⟩
      · rw [hsame] at h'; exact hinv info' h'
      · rw [hset] at h'
        have hcc : c' = c := by
          rw [hs] at hc'
          exact (Option.some.injEq _ _ ▸ hc').symm
        simp only [Option.some.injEq] at h'
        rw [← h']
        simpa [capturedTabInfo, hcc] using hcc ▸ hne

theorem lookup_navigated_click (v : FieldVal) (nt : Option TabInfo) :
    (([("clicked", v)] ++ newTabField nt).lookup "navigated") = none := by
  cases nt <;> rfl

/-- Is the event a `chrome.debugger.sendCommand` invocation? -/
def DbgEvent.isSend : DbgEvent → Bool
  | .send _ => true
  | _ => false

theorem attachPreamble_filter_send (attached0 : Bool) :
    (attachPreamble attached0).filter DbgEvent.isSend = [] := by
  cases attached0 <;> rfl

/-! ### Claim theorems -/

/-- C3: `sendDebuggerCommand` retries at most once on an error containing
"Debugger is not attached": the first such error forces one re-attach and
one resend of the same command (two sends in total); a second such error
within the same call surfaces as an error beginning with `CDP_NOT_READY`
and is not retried further; an error of any other class is propagated
directly after a single send. -/
theorem sendDebuggerCommand_retry_once {T : Type} (attached0 : Bool)
    (outcomes : Nat → Except String T) (m : String)
    (h0 : outcomes 0 = .error m) :
    (containsSubstr m cdpNotAttachedMsg = false →
      (sendDebuggerCommand attached0 outcomes).1 = .error m ∧
      ((sendDebuggerCommand attached0 outcomes).2.filter DbgEvent.isSend) =
        [.send 0]) ∧
    (containsSubstr m cdpNotAttachedMsg = true →
      ((sendDebuggerCommand attached0 outcomes).2.filter DbgEvent.isSend) =
        [.send 0, .send 1] ∧
      (sendDebuggerCommand attached0 outcomes).2 =
        attachPreamble attached0 ++
          [.send 0, .attach, .checkAttach, .send 1] ∧
      (∀ v, outcomes 1 = .ok v →
        (sendDebuggerCommand attached0 outcomes).1 = .ok v) ∧
      (∀ m2, outcomes 1 = .error m2 →
        containsSubstr m2 cdpNotAttachedMsg = true →
        (sendDebuggerCommand attached0 outcomes).1 =
          .error ("CDP_NOT_READY: " ++ m2) ∧
        strStartsWith ("CDP_NOT_READY: " ++ m2) "CDP_NOT_READY" = true) ∧
      (∀ m2, outcomes 1 = .error m2 →
        containsSubstr m2 cdpNotAttachedMsg = false →
        (sendDebuggerCommand attached0 outcomes).1 = .error m2)) := by
  constructor
  · intro hno
    have heq : sendDebuggerCommand attached0 outcomes =
        (.error m, attachPreamble attached0 ++ [.send 0]) := by
      unfold sendDebuggerCommand
      rw [h0]
      dsimp only
      rw [hno, if_neg (by decide)]
    rw [heq]
    exact ⟨rfl,
      by simp [List.filter_append, attachPreamble_filter_send, DbgEvent.isSend]⟩
  · intro hyes
    cases h1 : outcomes 1 with
    | ok v =>
      have heq : sendDebuggerCommand attached0 outcomes =
          (.ok v,
           attachPreamble attached0 ++
             [.send 0, .attach, .checkAttach, .send 1]) := by
        unfold sendDebuggerCommand
        rw [h0]
        dsimp only
        rw [hyes, if_pos rfl, h1]
      rw [heq]
      refine ⟨by simp [List.filter_append, attachPreamble_filter_send,
        DbgEvent.isSend], rfl, ?_, ?_, ?_⟩
      · intro v' hv'
        injection hv' with he
        rw [he]
      · intro m2' hm2'
        exact absurd hm2' (by simp)
      · intro m2' hm2'
        exact absurd hm2' (by simp)
    | error m2 =>
      by_cases h2 : containsSubstr m2 cdpNotAttachedMsg = true
      · have heq : sendDebuggerCommand attached0 outcomes =
            (.error ("CDP_NOT_READY: " ++ m2),
             attachPreamble attached0 ++
               [.send 0, .attach, .checkAttach, .send 1]) := by
          unfold sendDebuggerCommand
          rw [h0]
          dsimp only
          rw [hyes, if_pos rfl, h1]
          dsimp only
          rw [if_pos h2]
        rw [heq]
        refine ⟨by simp [List.filter_append, attachPreamble_filter_send,
          DbgEvent.isSend], rfl, ?_, ?_, ?_⟩
        · intro v hv
          exact absurd hv (by simp)
        · intro m2' hm2' _
          injection hm2' with he
          subst he
          exact ⟨rfl, strStartsWith_cdpNotReady m2⟩
        · intro m2' hm2' hno2
          injection hm2' with he
          subst he
          exact absurd h2 (by simp [hno2])
      · have heq : sendDebuggerCommand attached0 outcomes =
            (.error m2,
             attachPreamble attached0 ++
               [.send 0, .attach, .checkAttach, .send 1]) := by
          unfold sendDebuggerCommand
          rw [h0]
          dsimp only
          rw [hyes, if_pos rfl, h1]
          dsimp only
          rw [if_neg h2]
        rw [heq]
        refine ⟨by simp [List.filter_append, attachPreamble_filter_send,
          DbgEvent.isSend], rfl, ?_, ?_, ?_⟩
        · intro v hv
          exact absurd hv (by simp)
        · intro m2' hm2' hyes2
          injection hm2' with he
          subst he
          exact absurd hyes2 h2
        · intro m2' hm2' _
          injection hm2' with he
          subst he
          rfl

/-- Witness for C3: both sends fail with a not-attached error, so the
call ends with a `CDP_NOT_READY`-prefixed error after exactly two sends. -/
theorem sendDebuggerCommand_retry_once_witness :
    demoDetachedOutcomes 0 = .error "Debugger is not attached to the target" ∧
    containsSubstr "Debugger is not attached to the target" cdpNotAttachedMsg = true ∧
    (sendDebuggerCommand true demoDetachedOutcomes).1 =
      .error ("CDP_NOT_READY: " ++ "Debugger is not attached to the target") ∧
    ((sendDebuggerCommand true demoDetachedOutcomes).2.filter DbgEvent.isSend) =
      [.send 0, .send 1] := by
  have h := sendDebuggerCommand_retry_once true demoDetachedOutcomes
    "Debugger is not attached to the target" rfl
  have h2 := h.2 (by decide)
  exact ⟨rfl, by decide, (h2.2.2.2.1 _ rfl (by decide)).1, h2.1⟩

/-- C4: the pre-jitter backoff delay equals
`min(initialDelay * multiplier^(attempt-1), maxDelay)`, and with jitter
enabled the scheduled delay lies within ±25% of that value up to the
half-millisecond the rounding to whole milliseconds can add, for every
value of the random jitter draw. -/
theorem backoff_delay_formula_and_band (cfg : BackoffConfig) (attempt : Nat)
    (rand : ℚ) (h1 : 1 ≤ attempt) (h2 : 0 ≤ rand) (h3 : rand ≤ 1)
    (hi : 0 ≤ cfg.initialDelay) (hm : 0 ≤ cfg.multiplier)
    (hx : 0 ≤ cfg.maxDelay) :
    calcPreJitter cfg attempt =
      min (cfg.initialDelay * cfg.multiplier ^ (attempt - 1)) cfg.maxDelay ∧
    |(calculateBackoff cfg attempt rand : ℚ) - calcPreJitter cfg attempt| ≤
      calcPreJitter cfg attempt / 4 + 1 / 2 := by
  have hd : 0 ≤ calcPreJitter cfg attempt := le_min (by positivity) hx
  exact ⟨rfl, calculateBackoff_jitter_band cfg attempt rand h2 h3 hd⟩

/-- Witness for C4 at the relay client's configuration, attempt 3,
jitter draw 1/2. -/
theorem backoff_delay_formula_and_band_witness :
    (1 : Nat) ≤ 3 ∧ (0 : ℚ) ≤ 1 / 2 ∧ (1 / 2 : ℚ) ≤ 1 ∧
    (calcPreJitter reverbBackoffConfig 3 =
      min (reverbBackoffConfig.initialDelay *
           reverbBackoffConfig.multiplier ^ (3 - 1))
          reverbBackoffConfig.maxDelay ∧
     |(calculateBackoff reverbBackoffConfig 3 (1 / 2) : ℚ) -
        calcPreJitter reverbBackoffConfig 3| ≤
      calcPreJitter reverbBackoffConfig 3 / 4 + 1 / 2) :=
  ⟨by norm_num, by norm_num, by norm_num,
   backoff_delay_formula_and_band reverbBackoffConfig 3 (1 / 2)
     (by norm_num) (by norm_num) (by norm_num)
     (by norm_num [reverbBackoffConfig]) (by norm_num [reverbBackoffConfig])
     (by norm_num [reverbBackoffConfig])⟩

/-- C6: when `connectTab` is called with the privileged new-tab URL, the
trace begins with the navigation to about:blank and the await of its
load-complete signal; every debugger attach occurs strictly after those
two events. -/
theorem connectTab_newtab_blank_first (prevTab : Option Nat)
    (tabExists : Bool) (attachOutcome : Except String Unit) (tabId : Nat)
    (tabUrl : Option String) (h : tabUrl = some chromeNewTabUrl) :
    (∃ rest, (connectTab prevTab tabExists attachOutcome tabId tabUrl).2 =
      .navigateBlank :: .waitLoad :: rest) ∧
    (∀ k, (connectTab prevTab tabExists attachOutcome tabId tabUrl).2.get? k =
      some .attach → 2 ≤ k) := by
  subst h
  unfold connectTab
  rw [if_pos rfl]
  refine ⟨⟨(connectTabRest prevTab tabExists attachOutcome tabId).2, rfl⟩, ?_⟩
  intro k hk
  match k with
  | 0 => simp at hk
  | 1 => simp at hk
  | (n + 2) => omega

/-- Witness for C6: connecting the new-tab page with an existing tab and
a successful attach. -/
theorem connectTab_newtab_blank_first_witness :
    (some chromeNewTabUrl : Option String) = some chromeNewTabUrl ∧
    (∃ rest, (connectTab none true (.ok ()) 3 (some chromeNewTabUrl)).2 =
      .navigateBlank :: .waitLoad :: rest) ∧
    (∀ k, (connectTab none true (.ok ()) 3 (some chromeNewTabUrl)).2.get? k =
      some .attach → 2 ≤ k) :=
  ⟨rfl,
   (connectTab_newtab_blank_first none true (.ok ()) 3 (some chromeNewTabUrl) rfl).1,
   (connectTab_newtab_blank_first none true (.ok ()) 3 (some chromeNewTabUrl) rfl).2⟩

/-- C7: an explicit disconnect of the local socket transport rejects
every pending request/response correlation with the disconnection error,
clears the correlation map, cancels the scheduled reconnection timer,
and a subsequent disconnect event schedules no reconnect (the state is
left untouched by `handleDisconnect`). -/
theorem ws_disconnect_cleanup (maxAttempts intervalMs : Nat) (s : WsState) :
    (wsDisconnect s).1.pending = [] ∧
    (wsDisconnect s).1.reconnectTimer = none ∧
    (wsDisconnect s).2 = s.pending.map (fun id => (id, wsDisconnectMsg)) ∧
    wsHandleDisconnect maxAttempts intervalMs (wsDisconnect s).1 =
      (wsDisconnect s).1 := by
  refine ⟨rfl, rfl, rfl, ?_⟩
  unfold wsHandleDisconnect wsDisconnect
  simp

/-- C5 counterexample: after one prior attempt the local socket client
schedules its fixed 1000 ms interval, while the relay backoff policy's
pre-jitter delay for attempt 2 is 2000 ms; 1000 is not within ±25% of
2000, so no jitter draw reconciles the two schedules — the two clients do
not share the reconnection backoff policy. -/
theorem ws_vs_relay_backoff_counterexample :
    (wsHandleDisconnect MAX_RECONNECT_ATTEMPTS RECONNECT_INTERVAL_MS
      { reconnectAttempts := 1, shouldReconnect := true,
        reconnectTimer := none, pending := [], socketOpen := false
      }).reconnectTimer = some 1000 ∧
    calcPreJitter reverbBackoffConfig 2 = 2000 ∧
    ¬((3 / 4 : ℚ) * 2000 ≤ 1000 ∧ (1000 : ℚ) ≤ (5 / 4) * 2000) := by
  refine ⟨by decide, ?_, by norm_num⟩
  norm_num [calcPreJitter, reverbBackoffConfig]

/-- C5 (amended): the two transports do not share one backoff policy.
The local socket client schedules exactly one retry per disconnect after
the fixed `RECONNECT_INTERVAL_MS` delay — no exponential growth, no
jitter — and stops once `MAX_RECONNECT_ATTEMPTS` is reached; the cloud
relay client uses exponential backoff (base 1000 ms, multiplier 2,
capped at 30 s) with ±25% jitter and unlimited attempts. -/
theorem reconnect_policies_differ (s : WsState) (n : Nat) (rand : ℚ)
    (hs : s.shouldReconnect = true) (h2 : 0 ≤ rand) (h3 : rand ≤ 1) :
    (s.reconnectAttempts < MAX_RECONNECT_ATTEMPTS →
      wsHandleDisconnect MAX_RECONNECT_ATTEMPTS RECONNECT_INTERVAL_MS s =
        { s with reconnectAttempts := s.reconnectAttempts + 1,
                 reconnectTimer := some RECONNECT_INTERVAL_MS }) ∧
    (MAX_RECONNECT_ATTEMPTS ≤ s.reconnectAttempts →
      wsHandleDisconnect MAX_RECONNECT_ATTEMPTS RECONNECT_INTERVAL_MS s = s) ∧
    reverbBackoffConfig.maxAttempts = 0 ∧
    calcPreJitter reverbBackoffConfig n = min (1000 * 2 ^ (n - 1)) 30000 ∧
    |(calculateBackoff reverbBackoffConfig n rand : ℚ) -
        calcPreJitter reverbBackoffConfig n| ≤
      calcPreJitter reverbBackoffConfig n / 4 + 1 / 2 := by
  have hd : (0 : ℚ) ≤ calcPreJitter reverbBackoffConfig n := by
    refine le_min ?_ ?_
    · show (0 : ℚ) ≤ 1000 * 2 ^ (n - 1)
      positivity
    · norm_num [reverbBackoffConfig]
  refine ⟨?_, ?_, rfl, rfl, calculateBackoff_jitter_band _ _ _ h2 h3 hd⟩
  · intro hlt
    unfold wsHandleDisconnect
    rw [hs]
    rw [if_neg (by decide)]
    have hnot : ¬(MAX_RECONNECT_ATTEMPTS > 0 ∧
        s.reconnectAttempts ≥ MAX_RECONNECT_ATTEMPTS) := by
      intro hcontra
      exact absurd hlt (Nat.not_lt.mpr hcontra.2)
    rw [if_neg hnot]
  · intro hge
    unfold wsHandleDisconnect
    rw [hs]
    rw [if_neg (by decide)]
    rw [if_pos ⟨by decide, hge⟩]

/-- Witness for C5's amended statement at a concrete socket state and
relay attempt. -/
theorem reconnect_policies_differ_witness :
    ({ reconnectAttempts := 1, shouldReconnect := true, reconnectTimer := none,
       pending := [], socketOpen := false } : WsState).shouldReconnect = true ∧
    (0 : ℚ) ≤ 1 / 2 ∧ (1 / 2 : ℚ) ≤ 1 ∧
    ((1 : Nat) < MAX_RECONNECT_ATTEMPTS →
      wsHandleDisconnect MAX_RECONNECT_ATTEMPTS RECONNECT_INTERVAL_MS
        { reconnectAttempts := 1, shouldReconnect := true, reconnectTimer := none,
          pending := [], socketOpen := false } =
        { reconnectAttempts := 2, shouldReconnect := true,
          reconnectTimer := some RECONNECT_INTERVAL_MS, pending := [],
          socketOpen := false }) := by
  have h := reconnect_policies_differ
    { reconnectAttempts := 1, shouldReconnect := true, reconnectTimer := none,
      pending := [], socketOpen := false } 2 (1 / 2) rfl (by norm_num) (by norm_num)
  exact ⟨rfl, by norm_num, by norm_num, fun hlt => h.1 hlt⟩

/-- C8: every dispatcher reply carries the request's id; an unregistered
command type yields a `success: false` reply with code `UNKNOWN_TOOL`; a
throwing handler yields a `success: false` reply carrying the thrown
message; otherwise the reply is `success: true` with the handler's
result — in every case `handleMessage` returns an envelope. -/
theorem dispatcher_reply_policy {P R : Type}
    (handlers : String → Option (P → Except ThrownError R))
    (msg : IncomingMessage P) :
    (handleMessage handlers msg).id = msg.id ∧
    (handlers msg.type = none →
      handleMessage handlers msg =
        { id := msg.id, success := false, result := none,
          error := some ⟨"UNKNOWN_TOOL", "Unknown tool: " ++ msg.type⟩ }) ∧
    (∀ h r, handlers msg.type = some h → h msg.payload = .ok r →
      handleMessage handlers msg =
        { id := msg.id, success := true, result := some r, error := none }) ∧
    (∀ h e, handlers msg.type = some h → h msg.payload = .error e →
      (handleMessage handlers msg).success = false ∧
      (handleMessage handlers msg).error =
        some ⟨if e.name = "" then "EXECUTION_ERROR" else e.name,
              e.message⟩) := by
  unfold handleMessage
  cases hh : handlers msg.type with
  | none =>
    refine ⟨rfl, fun _ => rfl, ?_, ?_⟩
    · intro h r hc
      exact absurd hc (by simp)
    · intro h e hc
      exact absurd hc (by simp)
  | some handler =>
    dsimp only
    cases hr : handler msg.payload with
    | ok r0 =>
      refine ⟨rfl, ?_, ?_, ?_⟩
      · intro hc
        exact absurd hc (by simp)
      · intro h r hc hres
        injection hc with hch
        subst hch
        rw [hr] at hres
        injection hres with he
        rw [he]
      · intro h e hc hres
        injection hc with hch
        subst hch
        rw [hr] at hres
        exact absurd hres (by simp)
    | error e0 =>
      refine ⟨rfl, ?_, ?_, ?_⟩
      · intro hc
        exact absurd hc (by simp)
      · intro h r hc hres
        injection hc with hch
        subst hch
        rw [hr] at hres
        exact absurd hres (by simp)
      · intro h e hc hres
        injection hc with hch
        subst hch
        rw [hr] at hres
        injection hres with he
        subst he
        exact ⟨rfl, rfl⟩

/-- Witness for C8: an unknown tool replies `UNKNOWN_TOOL`, and the
registered demo tool's thrown error surfaces its message. -/
theorem dispatcher_reply_policy_witness :
    demoHandlers "missing_tool" = none ∧
    handleMessage demoHandlers
      { id := "42", type := "missing_tool", payload := (1 : Nat) } =
      { id := "42", success := false, result := none,
        error := some ⟨"UNKNOWN_TOOL", "Unknown tool: missing_tool"⟩ } ∧
    (handleMessage demoHandlers
      { id := "43", type := "browser_demo", payload := (0 : Nat) }).error =
      some ⟨"EXECUTION_ERROR", "boom"⟩ := by
  refine ⟨rfl, ?_, ?_⟩
  · exact (dispatcher_reply_policy demoHandlers
      { id := "42", type := "missing_tool", payload := (1 : Nat) }).2.1 rfl
  · exact ((dispatcher_reply_policy demoHandlers
      { id := "43", type := "browser_demo", payload := (0 : Nat) }).2.2.2
      _ ⟨"", "boom"⟩ rfl rfl).2

/-- C9: while detection is active, a created tab whose id differs from
the connected tab's id is captured; `stopNewTabDetection` returns it
exactly once and clears the record, so an immediately following call
returns none; and a tab equal to the connected tab is never captured. -/
theorem new_tab_detection_once (s0 : DetectState) (t : CreatedTab)
    (c i : Nat) (events : List CreatedTab)
    (hc : s0.connectedTabId = some c) (hc0 : c ≠ 0)
    (hi : t.id = some i) (hi0 : i ≠ 0) (hne : i ≠ c) :
    (stopNewTabDetection (onTabCreated (startNewTabDetection s0) t)).2 =
      some (capturedTabInfo t i) ∧
    (∀ s : DetectState,
      (stopNewTabDetection (stopNewTabDetection s).1).2 = none) ∧
    (∀ info,
      (events.foldl onTabCreated (startNewTabDetection s0)).pendingNewTab =
        some info → info.id ≠ c) := by
  refine ⟨?_, fun s => rfl, ?_⟩
  · unfold startNewTabDetection onTabCreated stopNewTabDetection
    simp [hc, hi, hc0, hi0, hne]
  · exact detect_never_captures_connected c events (startNewTabDetection s0)
      (by simpa [startNewTabDetection] using hc)
      (fun info h => by simp [startNewTabDetection] at h)

/-- Witness for C9: tab 9 created while tab 7 is connected. -/
theorem new_tab_detection_once_witness :
    (⟨some 7, none, false⟩ : DetectState).connectedTabId = some 7 ∧
    (⟨some 9, some "https://x.example/", none, some "X", false⟩ :
      CreatedTab).id = some 9 ∧
    (stopNewTabDetection (onTabCreated
      (startNewTabDetection ⟨some 7, none, false⟩)
      ⟨some 9, some "https://x.example/", none, some "X", false⟩)).2 =
      some (capturedTabInfo
        ⟨some 9, some "https://x.example/", none, some "X", false⟩ 9) ∧
    (stopNewTabDetection (stopNewTabDetection
      (onTabCreated (startNewTabDetection ⟨some 7, none, false⟩)
        ⟨some 9, some "https://x.example/", none, some "X", false⟩)).1).2 =
      none := by
  have h := new_tab_detection_once ⟨some 7, none, false⟩
    ⟨some 9, some "https://x.example/", none, some "X", false⟩ 7 9
    [⟨some 9, some "https://x.example/", none, some "X", false⟩]
    rfl (by decide) rfl (by decide) (by decide)
  exact ⟨rfl, rfl, h.1, h.2.1 _⟩

/-- C10: `handleError` reaches FAILED only on `AUTH_EXPIRED` or on a
reached positive `maxAttempts` bound; every other code — the named
network-class codes and any code outside the enumeration — is classified
recoverable and, while online under unlimited attempts, yields
RECONNECTING with `shouldRetry` and a computed backoff delay. -/
theorem handleError_failed_only_auth_or_max (cfg : BackoffConfig)
    (s : CsmState) (code message : String) (online : Bool) (rand : ℚ)
    (now : ℤ) :
    ((handleError cfg s code message online rand now).1.state = .failed →
      code = "AUTH_EXPIRED" ∨
      (0 < cfg.maxAttempts ∧ cfg.maxAttempts ≤ s.reconnectAttempt + 1)) ∧
    (code ≠ "AUTH_EXPIRED" → isRecoverableError code = true) ∧
    (online = true → code ≠ "AUTH_EXPIRED" → cfg.maxAttempts = 0 →
      (handleError cfg s code message online rand now).1.state =
        .reconnecting ∧
      (handleError cfg s code message online rand now).2.shouldRetry = true ∧
      (handleError cfg s code message online rand now).2.delay =
        some (calculateBackoff cfg (s.reconnectAttempt + 1) rand)) := by
  have hrec : ∀ c : String, c ≠ "AUTH_EXPIRED" → isRecoverableError c = true := by
    intro c hcne
    cases hb : isRecoverableError c
    · exact absurd ((isRecoverableError_false_iff c).mp hb) hcne
    · rfl
  refine ⟨?_, hrec code, ?_⟩
  · intro hfail
    unfold handleError at hfail
    split_ifs at hfail with h1 h2 h3
    · left
      have hfalse : isRecoverableError code = false := by
        cases hb : isRecoverableError code
        · rfl
        · rw [hb] at h2
          exact absurd h2 (by simp)
      exact (isRecoverableError_false_iff code).mp hfalse
    · right
      exact ⟨h3.1, h3.2⟩
  · intro ho hne hmax
    have hr := hrec code hne
    unfold handleError
    rw [ho, hr]
    simp [hmax]

/-- Witness for C10: a NETWORK_ERROR while online under the relay's
unlimited-attempts configuration yields RECONNECTING with a delay. -/
theorem handleError_failed_only_auth_or_max_witness :
    (true = true) ∧ ("NETWORK_ERROR" : String) ≠ "AUTH_EXPIRED" ∧
    reverbBackoffConfig.maxAttempts = 0 ∧
    ((handleError reverbBackoffConfig ⟨.connected, 0, none⟩ "NETWORK_ERROR"
        "fetch failed" true (1 / 2) 0).1.state = .reconnecting ∧
     (handleError reverbBackoffConfig ⟨.connected, 0, none⟩ "NETWORK_ERROR"
        "fetch failed" true (1 / 2) 0).2.shouldRetry = true ∧
     (handleError reverbBackoffConfig ⟨.connected, 0, none⟩ "NETWORK_ERROR"
        "fetch failed" true (1 / 2) 0).2.delay =
       some (calculateBackoff reverbBackoffConfig 1 (1 / 2))) := by
  refine ⟨rfl, by decide, rfl, ?_⟩
  exact (handleError_failed_only_auth_or_max reverbBackoffConfig
    ⟨.connected, 0, none⟩ "NETWORK_ERROR" "fetch failed" true (1 / 2) 0).2.2
    rfl (by decide) rfl

/-- C1: resolving a reference of the form `s<gen>e<idx>` whose generation
differs from the current snapshot's fails with the stale-reference error
whose message names both the current and the given generation; it never
resolves to an element, and `browser_click` with such a reference fails
without dispatching a single mouse event. -/
theorem stale_reference_rejected (env : ToolEnv) (snap : Snapshot)
    (ref : String) (g : Nat) (tid : Nat)
    (htab : env.tabId = some tid)
    (hsnap : env.snap = some snap)
    (hparse : refGenMatch ref = some g)
    (hstale : g ≠ snap.generation) :
    envGetSelector env ref = .error (staleRefMsg snap.generation g) ∧
    containsSubstr (staleRefMsg snap.generation g)
      (toString snap.generation) = true ∧
    containsSubstr (staleRefMsg snap.generation g) (toString g) = true ∧
    (browser_click env ref).1 = .error (staleRefMsg snap.generation g) ∧
    ((browser_click env ref).2.filter ToolEvent.isMouse) = [] := by
  have hres : envGetSelector env ref =
      .error (staleRefMsg snap.generation g) := by
    unfold envGetSelector handleGetSelector
    rw [hsnap]
    rw [getElementByRef_stale hparse hstale]
    dsimp only
    rw [hparse]
    dsimp only
    rw [if_pos hstale]
  have hclick : browser_click env ref =
      (.error (staleRefMsg snap.generation g),
       [.startDetect, .selectorQuery ref, .stopDetect]) := by
    unfold browser_click
    rw [htab]
    dsimp only
    rw [hres]
  refine ⟨hres, (staleRefMsg_names_generations _ _).1,
    (staleRefMsg_names_generations _ _).2, ?_, ?_⟩
  · rw [hclick]
  · rw [hclick]
    rfl

/-- Witness for C1: the spec's scenario — ref `s1e5` against a
generation-2 snapshot. -/
theorem stale_reference_rejected_witness :
    refGenMatch "s1e5" = some 1 ∧ (1 : Nat) ≠ 2 ∧
    envGetSelector demoStaleEnv "s1e5" = .error (staleRefMsg 2 1) ∧
    (browser_click demoStaleEnv "s1e5").1 = .error (staleRefMsg 2 1) ∧
    ((browser_click demoStaleEnv "s1e5").2.filter ToolEvent.isMouse) = [] := by
  have h := stale_reference_rejected demoStaleEnv
    { generation := 2, elements := [(5, 77)] } "s1e5" 1 7
    rfl rfl (by decide) (by decide)
  exact ⟨by decide, by decide, h.1, h.2.2.2.1, h.2.2.2.2⟩

/-- C2: for `browser_click`, `browser_type` and `browser_press_key`, a
stability-wait failure with a navigation-class error message and a
changed tab URL yields success with `navigated: true` and the new URL;
the same failure with an unchanged URL yields plain success with no
`navigated` field; a failure outside that class propagates as an error. -/
theorem nav_error_resolution (env : ToolEnv) (ref text k sel : String)
    (clear : Bool) (tid : Nat) (c : ℤ × ℤ) (e : String)
    (htab : env.tabId = some tid)
    (hsel : envGetSelector env ref = .ok sel)
    (hscroll : env.scrollOutcome sel = .ok ())
    (hcoords : env.coordsOutcome sel = .ok c)
    (hstab : env.stability = .error e) :
    (isNavigationError e = true → env.currentUrl ≠ env.initialUrl →
      (browser_click env ref).1 =
        .ok ([("clicked", FieldVal.str ref), ("navigated", FieldVal.bool true)] ++
             [("newUrl", FieldVal.str env.currentUrl)] ++
             newTabField (envDetectedTab env)) ∧
      (browser_type env ref text clear).1 =
        .ok [("typed", FieldVal.str text), ("cleared", FieldVal.bool clear),
             ("navigated", FieldVal.bool true),
             ("newUrl", FieldVal.str env.currentUrl)] ∧
      (browser_press_key env k).1 =
        .ok [("pressed", FieldVal.str k), ("navigated", FieldVal.bool true),
             ("newUrl", FieldVal.str env.currentUrl)]) ∧
    (isNavigationError e = true → env.currentUrl = env.initialUrl →
      (browser_click env ref).1 =
        .ok ([("clicked", FieldVal.str ref)] ++
             newTabField (envDetectedTab env)) ∧
      (([("clicked", FieldVal.str ref)] ++
        newTabField (envDetectedTab env)).lookup "navigated") = none ∧
      (browser_type env ref text clear).1 =
        .ok [("typed", FieldVal.str text), ("cleared", FieldVal.bool clear)] ∧
      (([("typed", FieldVal.str text), ("cleared", FieldVal.bool clear)] :
        List Field).lookup "navigated") = none ∧
      (browser_press_key env k).1 = .ok [("pressed", FieldVal.str k)] ∧
      (([("pressed", FieldVal.str k)] : List Field).lookup "navigated") =
        none) ∧
    (isNavigationError e = false →
      (browser_click env ref).1 = .error e ∧
      (browser_type env ref text clear).1 = .error e ∧
      (browser_press_key env k).1 = .error e) := by
  refine ⟨?_, ?_, ?_⟩
  · intro hnav hne
    have hw : waitForStableOrNavigation (some tid) env.stability
        env.currentUrl env.initialUrl = .ok ⟨true, some env.currentUrl⟩ := by
      unfold waitForStableOrNavigation
      dsimp only
      rw [hstab]
      dsimp only
      rw [hnav, if_pos rfl, if_pos hne]
    refine ⟨?_, ?_, ?_⟩
    · unfold browser_click
      rw [htab]
      dsimp only
      rw [hsel]
      dsimp only
      rw [hscroll]
      dsimp only
      rw [hcoords]
      dsimp only
      rw [hw]
      dsimp only
      rw [if_pos rfl]
      try rfl
    · unfold browser_type
      rw [htab]
      dsimp only
      rw [hsel]
      dsimp only
      rw [hscroll]
      dsimp only
      rw [hcoords]
      dsimp only
      rw [hw]
      dsimp only
      rw [if_pos rfl]
      try rfl
    · unfold browser_press_key
      rw [htab]
      dsimp only
      rw [hw]
      dsimp only
      rw [if_pos rfl]
      try rfl
  · intro hnav heq
    have hw : waitForStableOrNavigation (some tid) env.stability
        env.currentUrl env.initialUrl = .ok ⟨false, none⟩ := by
      unfold waitForStableOrNavigation
      dsimp only
      rw [hstab]
      dsimp only
      rw [hnav, if_pos rfl, if_neg (fun hcontra => hcontra heq)]
    refine ⟨?_, ?_, ?_, ?_, ?_, ?_⟩
    · unfold browser_click
      rw [htab]
      dsimp only
      rw [hsel]
      dsimp only
      rw [hscroll]
      dsimp only
      rw [hcoords]
      dsimp only
      rw [hw]
      dsimp only
      rw [if_neg (by decide)]
      try rfl
    · exact lookup_navigated_click (FieldVal.str ref) (envDetectedTab env)
    · unfold browser_type
      rw [htab]
      dsimp only
      rw [hsel]
      dsimp only
      rw [hscroll]
      dsimp only
      rw [hcoords]
      dsimp only
      rw [hw]
      dsimp only
      rw [if_neg (by decide)]
      try rfl
    · rfl
    · unfold browser_press_key
      rw [htab]
      dsimp only
      rw [hw]
      dsimp only
      rw [if_neg (by decide)]
      try rfl
    · rfl
  · intro hnav
    have hw : waitForStableOrNavigation (some tid) env.stability
        env.currentUrl env.initialUrl = .error e := by
      unfold waitForStableOrNavigation
      dsimp only
      rw [hstab]
      dsimp only
      rw [hnav, if_neg (by decide)]
    refine ⟨?_, ?_, ?_⟩
    · unfold browser_click
      rw [htab]
      dsimp only
      rw [hsel]
      dsimp only
      rw [hscroll]
      dsimp only
      rw [hcoords]
      dsimp only
      rw [hw]
      try rfl
    · unfold browser_type
      rw [htab]
      dsimp only
      rw [hsel]
      dsimp only
      rw [hscroll]
      dsimp only
      rw [hcoords]
      dsimp only
      rw [hw]
      try rfl
    · unfold browser_press_key
      rw [htab]
      dsimp only
      rw [hw]

/-- Witness for C2: a message-port-closed failure with a changed URL on
the demo environment yields `navigated: true` with the new URL for all
three commands. -/
theorem nav_error_resolution_witness :
    isNavigationError
      "The message port closed before a response was received" = true ∧
    demoNavEnv.currentUrl ≠ demoNavEnv.initialUrl ∧
    (browser_click demoNavEnv "s1e5").1 =
      .ok [("clicked", FieldVal.str "s1e5"), ("navigated", FieldVal.bool true),
           ("newUrl", FieldVal.str "https://b.example/")] ∧
    (browser_press_key demoNavEnv "Enter").1 =
      .ok [("pressed", FieldVal.str "Enter"), ("navigated", FieldVal.bool true),
           ("newUrl", FieldVal.str "https://b.example/")] := by
  have h := nav_error_resolution demoNavEnv "s1e5" "hi" "Enter" "#el77" false 7
    (10, 20) "The message port closed before a response was received"
    rfl rfl rfl rfl rfl
  have hcase := h.1 (by decide) (by decide)
  exact ⟨by decide, by decide, hcase.1, hcase.2.2⟩

end AgentJake
